import Mathlib

/-!
Verification development for the optimistic-update entity-store pattern of
the AhorroLand front-end.  Each store (categorias, clientes, gastos,
ingresos, ...) owns an in-memory snapshot of one entity collection and
mutates it optimistically around calls to a remote Gateway.

The TypeScript stores are shallowly embedded as pure Lean functions: every
`patchState` block becomes a record update, the awaited Gateway promise
becomes an explicit `Outcome` argument, each `Date.now()` call site becomes
an explicit `Nat` millisecond argument, and a re-thrown error becomes
`Except.error`.  `Map<string, T[]>` is embedded as an association list.
-/

/-- JavaScript `x || default` applied to an optional string field: a missing
field and the empty string (both falsy) fall back to the default. -/
def jsOr (s : Option String) (d : String) : String :=
  match s with
  | some m => if m = "" then d else m
  | none => d

/-- The `Result<T>` envelope returned by the Gateway services
(`isSuccess`/`value`/`error`).  The `error` component is flattened to the
message string read through `error?.message`; an envelope whose error object
lacks a message behaves, through `jsOr`, identically to a missing error
object. -/
structure Result (α : Type) where
  isSuccess : Bool
  value : Option α
  error : Option String
deriving Repr, DecidableEq

/-- Outcome of an awaited Gateway promise: it either resolves with a
`Result` envelope or rejects (transport failure); a rejection carries the
`message` of the thrown error. -/
inductive Outcome (α : Type) where
  | resp (r : Result α)
  | exn (message : String)
deriving Repr, DecidableEq

/-- The `ErrorResponse` delivered to `tapResponse` error handlers; only its
`detail` field is read by the stores. -/
structure ErrorResponse where
  detail : Option String
deriving Repr, DecidableEq

/-- Outcome of a Gateway `delete` call (`Observable<void>`): completion or
an `ErrorResponse`. -/
inductive DeleteOutcome where
  | ok
  | fail (err : ErrorResponse)
deriving Repr, DecidableEq

/-- `temp_${Date.now()}`: the temporary identifier generated at the start of
every optimistic create, from the current clock value in milliseconds. -/
def tempIdOf (nowMs : Nat) : String := "temp_" ++ Nat.repr nowMs

/-! ## Categoria store (categoria.store.ts) -/

/-- The `Categoria` model.  `fechaCreacion : Date` is embedded as the
millisecond timestamp the `Date` object wraps. -/
structure Categoria where
  id : String
  nombre : String
  descripcion : String
  fechaCreacion : Nat
  usuarioId : String
deriving Repr, DecidableEq

/-- A `Partial<Categoria>`: every field optional, spread over a record by
`mergeCategoria`. -/
structure CategoriaPatch where
  id : Option String := none
  nombre : Option String := none
  descripcion : Option String := none
  fechaCreacion : Option Nat := none
  usuarioId : Option String := none
deriving Repr, DecidableEq

/-- JavaScript object spread `{ ...c, ...p }` for a `Partial<Categoria>`:
fields present in the update override the record, including `id`. -/
def mergeCategoria (c : Categoria) (p : CategoriaPatch) : Categoria :=
  { id := p.id.getD c.id
    nombre := p.nombre.getD c.nombre
    descripcion := p.descripcion.getD c.descripcion
    fechaCreacion := p.fechaCreacion.getD c.fechaCreacion
    usuarioId := p.usuarioId.getD c.usuarioId }

/-- `CategoriaState`: the snapshot owned by `CategoriaStore`.
`totalRecords` is an `Int` because the store freely decrements it.
`searchCache : Map<string, Categoria[]>` is an association list. -/
structure CategoriaState where
  categorias : List Categoria
  totalRecords : Int
  loading : Bool
  error : Option String
  lastUpdated : Option Nat
  searchCache : List (String × List Categoria)
deriving Repr, DecidableEq

/-- The categoria store's `initialState`. -/
def categoriaInitialState : CategoriaState :=
  { categorias := [], totalRecords := 0, loading := false, error := none,
    lastUpdated := none, searchCache := [] }

/-- `Map.get`: first entry with the given key. -/
def cacheGet (cache : List (String × List Categoria)) (key : String) :
    Option (List Categoria) :=
  (cache.find? (fun e => e.1 == key)).map (fun e => e.2)

/-- `Map.set`: replace the entry in place when the key is present, append
otherwise (JS `Map` keeps insertion order). -/
def cacheSet (cache : List (String × List Categoria)) (key : String)
    (v : List Categoria) : List (String × List Categoria) :=
  if cache.any (fun e => e.1 == key) then
    cache.map (fun e => if e.1 == key then (key, v) else e)
  else
    cache ++ [(key, v)]

/-- Optimistic phase of `CategoriaStore.create` (categoria.store.ts:90-105):
the temporary record is appended to the collection, `loading` is raised and
the error slot reset — all before the Gateway call is dispatched.
`nowMs` is the `Date.now()` read by the temp-id template, `dateNow` the
`new Date()` stored in `fechaCreacion`. -/
def CategoriaStore.createOptimistic (s : CategoriaState) (nombre : String)
    (nowMs dateNow : Nat) : CategoriaState :=
  { s with
    categorias := s.categorias ++
      [{ id := tempIdOf nowMs, nombre := nombre, descripcion := "",
         fechaCreacion := dateNow, usuarioId := "" }]
    loading := true
    error := none }

/-- `CategoriaStore.create` (categoria.store.ts:90-139) from the optimistic
insert to confirmation or rollback.  The success branch requires
`response.isSuccess && response.value`; a string value is truthy exactly
when it is non-empty.  The catch branch removes the temporary record,
records the derived message and re-throws (`Except.error`). -/
def CategoriaStore.create (s : CategoriaState) (nombre : String)
    (nowMs dateNow dateNow2 lastUpd : Nat) (outcome : Outcome String) :
    CategoriaState × Except String String :=
  let tempId := tempIdOf nowMs
  let s1 := CategoriaStore.createOptimistic s nombre nowMs dateNow
  let rollback := fun (msg : String) =>
    ({ s1 with
       categorias := s1.categorias.filter (fun c => c.id != tempId)
       loading := false
       error := some msg }, (Except.error msg : Except String String))
  match outcome with
  | .resp r =>
    match r.value with
    | some v =>
      if r.isSuccess && v != "" then
        let realCategoria : Categoria :=
          { id := v, nombre := nombre, descripcion := "",
            fechaCreacion := dateNow2, usuarioId := "" }
        ({ s1 with
           categorias := s1.categorias.map
             (fun c => if c.id == tempId then realCategoria else c)
           loading := false
           lastUpdated := some lastUpd
           searchCache := [] }, Except.ok v)
      else rollback (jsOr r.error "Error al crear categoría")
    | none => rollback (jsOr r.error "Error al crear categoría")
  | .exn m => rollback m

/-- Optimistic phase of `CategoriaStore.update` (categoria.store.ts:249-261):
when a record with the identifier exists, a shallow merge is applied to it
in place, before the Gateway call; otherwise the snapshot is untouched. -/
def CategoriaStore.updateOptimistic (s : CategoriaState) (id : String)
    (p : CategoriaPatch) : CategoriaState :=
  match s.categorias.find? (fun c => c.id == id) with
  | some _ =>
    { s with
      categorias := s.categorias.map
        (fun c => if c.id == id then mergeCategoria c p else c)
      loading := true
      error := none }
  | none => s

/-- `CategoriaStore.update` (categoria.store.ts:249-290).  The captured
`categoriaAnterior` is the record found before mutating; on failure the
rollback maps every record whose *current* id equals the argument back to
the captured record, then records the message and re-throws.  On success the
merge is retained, the cache cleared and `response.value` returned. -/
def CategoriaStore.update (s : CategoriaState) (id : String)
    (p : CategoriaPatch) (lastUpd : Nat) (outcome : Outcome String) :
    CategoriaState × Except String String :=
  let categoriaAnterior := s.categorias.find? (fun c => c.id == id)
  let s1 := CategoriaStore.updateOptimistic s id p
  let rollback := fun (msg : String) =>
    let s2 : CategoriaState :=
      match categoriaAnterior with
      | some prev =>
        { s1 with
          categorias := s1.categorias.map
            (fun c => if c.id == id then prev else c) }
      | none => s1
    ({ s2 with loading := false, error := some msg },
     (Except.error msg : Except String String))
  match outcome with
  | .resp r =>
    if r.isSuccess then
      ({ s1 with
          loading := false, lastUpdated := some lastUpd,
          searchCache := [] }, Except.ok (r.value.getD ""))
    else rollback (jsOr r.error "Error al actualizar categoría")
  | .exn m => rollback m

/-- Optimistic phase of `CategoriaStore.deleteCategoria`
(categoria.store.ts:201-208, the `tap`): the record is filtered out, the
total decremented and the cache cleared before the Gateway call. -/
def CategoriaStore.deleteOptimistic (s : CategoriaState) (id : String) :
    CategoriaState :=
  { s with
    categorias := s.categorias.filter (fun c => c.id != id)
    totalRecords := s.totalRecords - 1
    searchCache := [] }

/-- `CategoriaStore.deleteCategoria` (categoria.store.ts:199-247).  The
`switchMap` body runs after the optimistic `tap`, so `categoriaEliminada`
is looked up — twice, the `||` fallback repeats the same lookup — in the
collection from which the record was already removed, and `totalAnterior`
reads the already decremented total.  On failure, the captured record is
re-inserted sorted by `nombre` when the capture succeeded, else only the
error is recorded. -/
def CategoriaStore.deleteCategoria (s : CategoriaState) (id : String)
    (outcome : DeleteOutcome) (lastUpd : Nat) : CategoriaState :=
  let s1 := CategoriaStore.deleteOptimistic s id
  let categoriaEliminada :=
    (s1.categorias.find? (fun c => c.id == id)).orElse
      (fun _ => s1.categorias.find? (fun c => c.id == id))
  let totalAnterior := s1.totalRecords
  match outcome with
  | .ok => { s1 with lastUpdated := some lastUpd }
  | .fail e =>
    match categoriaEliminada with
    | some c =>
      { s1 with
        categorias := (s1.categorias ++ [c]).mergeSort
          (fun a b => a.nombre ≤ b.nombre)
        totalRecords := totalAnterior
        error := some (jsOr e.detail "Error al eliminar categoría") }
    | none =>
      { s1 with error := some (jsOr e.detail "Error al eliminar categoría") }

/-- `CategoriaStore.search` (categoria.store.ts:58-88): cache-first on the
key `${query}_${limit}`; a hit returns synchronously with no state change; a
miss raises `loading`, resets the error slot, then populates the cache on
success or records the message and re-throws on failure.  A JS array is
truthy even when empty, so the success branch needs only `isSuccess` and a
present `value`. -/
def CategoriaStore.search (s : CategoriaState) (query : String) (limit : Nat)
    (outcome : Outcome (List Categoria)) (lastUpd : Nat) :
    CategoriaState × Except String (List Categoria) :=
  let cacheKey := query ++ "_" ++ Nat.repr limit
  match cacheGet s.searchCache cacheKey with
  | some cached => (s, Except.ok cached)
  | none =>
    let s1 := { s with loading := true, error := none }
    match outcome with
    | .resp r =>
      match r.value with
      | some categorias =>
        if r.isSuccess then
          ({ s1 with
             loading := false
             searchCache := cacheSet s1.searchCache cacheKey categorias
             lastUpdated := some lastUpd }, Except.ok categorias)
        else
          let msg := jsOr r.error "Error al buscar categorías"
          ({ s1 with loading := false, error := some msg }, Except.error msg)
      | none =>
        let msg := jsOr r.error "Error al buscar categorías"
        ({ s1 with loading := false, error := some msg }, Except.error msg)
    | .exn m =>
      ({ s1 with loading := false, error := some m }, Except.error m)

/-- `CategoriaStore.getRecent` (categoria.store.ts:141-156): raises
`loading` (without resetting the error slot), returns the list on success;
on failure it only lowers `loading` — no message is recorded — and
re-throws.  The `Array.isArray` normalisation is embedded by carrying the
list directly in `value`. -/
def CategoriaStore.getRecent (s : CategoriaState)
    (outcome : Outcome (List Categoria)) :
    CategoriaState × Except String (List Categoria) :=
  let s1 := { s with loading := true }
  match outcome with
  | .resp r =>
    match r.value with
    | some v =>
      if r.isSuccess then ({ s1 with loading := false }, Except.ok v)
      else
        ({ s1 with loading := false },
         Except.error (jsOr r.error "Error al cargar categorías recientes"))
    | none =>
      ({ s1 with loading := false },
       Except.error (jsOr r.error "Error al cargar categorías recientes"))
  | .exn m => ({ s1 with loading := false }, Except.error m)

/-- `CategoriaStore.clearError` (categoria.store.ts:292-294). -/
def CategoriaStore.clearError (s : CategoriaState) : CategoriaState :=
  { s with error := none }

/-! ## Paginated load (`loadCategoriasPaginated`, categoria.store.ts:158-197)

The `rxMethod` pipes a `tap` (dispatch) into a `switchMap` (response
handling).  `switchMap` unsubscribes the previous inner observable whenever
a new query is emitted, so a response belonging to a superseded request is
discarded.  The embedding tags each request with a sequence number and keeps
the tag of the currently subscribed request; a response event applies only
when its tag is the active one. -/

/-- A pagination/sort/filter query descriptor. -/
structure Query where
  page : Nat
  pageSize : Nat
  searchTerm : Option String := none
  sortColumn : Option String := none
  sortOrder : Option String := none
deriving Repr, DecidableEq

/-- The `{ items, totalCount }` payload of a successful paginated fetch. -/
structure PagedResponse where
  items : List Categoria
  totalCount : Int
deriving Repr, DecidableEq

/-- Outcome carried by a paginated-load response event: payload, or the
error whose `userMessage` the handler reads. -/
inductive LoadResult where
  | ok (r : PagedResponse)
  | err (userMessage : Option String)
deriving Repr, DecidableEq

/-- Events observed by the paginated-load pipeline: a request emission
(the `tap` runs and `switchMap` switches to this request) or the arrival of
the response belonging to the request with the given tag.  `now` is the
`Date.now()` read by the success handler. -/
inductive LoadEvent where
  | request (tag : Nat) (q : Query)
  | response (tag : Nat) (r : LoadResult) (now : Nat)
deriving Repr, DecidableEq

/-- Store state plus the tag of the request the `switchMap` is currently
subscribed to. -/
structure LoadMachine where
  store : CategoriaState
  active : Option Nat
deriving Repr, DecidableEq

/-- The `tap` of `loadCategoriasPaginated` (categoria.store.ts:166-172):
raises `loading` and resets the error slot at dispatch. -/
def CategoriaStore.loadDispatch (s : CategoriaState) : CategoriaState :=
  { s with loading := true, error := none }

/-- The `tapResponse` success handler (categoria.store.ts:176-185):
replaces the collection and total, clears the cache, records the sync
timestamp and resets the error slot. -/
def CategoriaStore.loadSuccess (s : CategoriaState) (r : PagedResponse)
    (now : Nat) : CategoriaState :=
  { s with
    categorias := r.items
    totalRecords := r.totalCount
    loading := false
    error := none
    lastUpdated := some now
    searchCache := [] }

/-- The `tapResponse` error handler (categoria.store.ts:186-192): lowers
`loading` and records `error.userMessage || 'Error al cargar categorías'`;
the collection is left unchanged. -/
def CategoriaStore.loadFailure (s : CategoriaState)
    (userMessage : Option String) : CategoriaState :=
  { s with
    loading := false
    error := some (jsOr userMessage "Error al cargar categorías") }

/-- One step of the paginated-load pipeline.  A request event runs the
`tap` and makes its tag the active subscription; a response event is applied
by `tapResponse` only when its request is still the active one — the
response of a request superseded by `switchMap` is discarded. -/
def loadStep (m : LoadMachine) (e : LoadEvent) : LoadMachine :=
  match e with
  | .request tag _ =>
    { store := CategoriaStore.loadDispatch m.store, active := some tag }
  | .response tag r now =>
    if m.active = some tag then
      match r with
      | .ok p => { m with store := CategoriaStore.loadSuccess m.store p now }
      | .err u => { m with store := CategoriaStore.loadFailure m.store u }
    else m

/-- Run the paginated-load pipeline over a sequence of events. -/
def loadRun (m : LoadMachine) (es : List LoadEvent) : LoadMachine :=
  es.foldl loadStep m

/-! ## Cliente store (cliente.store.ts) -/

/-- The `Cliente` model (the fields populated by the store's create). -/
structure Cliente where
  id : String
  nombre : String
  fechaCreacion : Nat
  usuarioId : String
deriving Repr, DecidableEq

/-- `ClienteState`: same shape as the categoria snapshot. -/
structure ClienteState where
  clientes : List Cliente
  totalRecords : Int
  loading : Bool
  error : Option String
  lastUpdated : Option Nat
  searchCache : List (String × List Cliente)
deriving Repr, DecidableEq

/-- The cliente store's `initialState`. -/
def clienteInitialState : ClienteState :=
  { clientes := [], totalRecords := 0, loading := false, error := none,
    lastUpdated := none, searchCache := [] }

/-- Optimistic phase of `ClienteStore.create` (cliente.store.ts:70-83):
appends the temporary record, raises `loading`, resets the error slot —
and leaves `totalRecords` untouched. -/
def ClienteStore.createOptimistic (s : ClienteState) (nombre : String)
    (nowMs dateNow : Nat) : ClienteState :=
  { s with
    clientes := s.clientes ++
      [{ id := tempIdOf nowMs, nombre := nombre, fechaCreacion := dateNow,
         usuarioId := "" }]
    loading := true
    error := none }

/-- `ClienteStore.create` (cliente.store.ts:70-115).  The success branch
requires only `response.isSuccess` and keeps `response.value` as the real
id.  The catch branch — commented `ROLLBACK: Eliminar cliente temporal y
restaurar totalRecords` in the source — removes the temporary record,
decrements `totalRecords` (which the optimistic phase never incremented),
clears the cache, records the message and re-throws. -/
def ClienteStore.create (s : ClienteState) (nombre : String)
    (nowMs dateNow dateNow2 lastUpd : Nat) (outcome : Outcome String) :
    ClienteState × Except String String :=
  let tempId := tempIdOf nowMs
  let s1 := ClienteStore.createOptimistic s nombre nowMs dateNow
  let rollback := fun (msg : String) =>
    ({ s1 with
       clientes := s1.clientes.filter (fun c => c.id != tempId)
       totalRecords := s1.totalRecords - 1
       loading := false
       error := some msg
       searchCache := [] }, (Except.error msg : Except String String))
  match outcome with
  | .resp r =>
    if r.isSuccess then
      let realCliente : Cliente :=
        { id := r.value.getD "", nombre := nombre, fechaCreacion := dateNow2,
          usuarioId := "" }
      ({ s1 with
         clientes := s1.clientes.map
           (fun c => if c.id == tempId then realCliente else c)
         loading := false
         lastUpdated := some lastUpd
         searchCache := [] }, Except.ok (r.value.getD ""))
    else rollback (jsOr r.error "Error al crear cliente")
  | .exn m => rollback m

/-! ## Gastos store (GastosStore, expenses) -/

/-- A `Gasto` record as far as the delete pipeline observes it: only the
identifier is ever inspected (`filter((g) => g.id !== id)`); the business
attributes play no role in the modelled operation. -/
structure Gasto where
  id : String
deriving Repr, DecidableEq

/-- The slice of `GastosState` the delete pipeline touches. -/
structure GastosState where
  gastos : List Gasto
  totalRecords : Int
  loading : Bool
  error : Option String
  lastUpdated : Option Nat
  searchCache : List (String × List Gasto)
deriving Repr, DecidableEq

/-- Optimistic phase of `GastosStore.deleteGasto` (the `tap`): filters the
record out, decrements the total and clears the cache before the Gateway
call. -/
def GastosStore.deleteOptimistic (s : GastosState) (id : String) :
    GastosState :=
  { s with
    gastos := s.gastos.filter (fun g => g.id != id)
    totalRecords := s.totalRecords - 1
    searchCache := [] }

/-- `GastosStore.deleteGasto`.  On success only `lastUpdated` is patched;
on failure only `err.detail || 'Error al eliminar gasto'` is recorded —
the pipeline contains no rollback: the record is not re-inserted and the
decremented total is not restored. -/
def GastosStore.deleteGasto (s : GastosState) (id : String)
    (outcome : DeleteOutcome) (lastUpd : Nat) : GastosState :=
  let s1 := GastosStore.deleteOptimistic s id
  match outcome with
  | .ok => { s1 with lastUpdated := some lastUpd }
  | .fail e =>
    { s1 with error := some (jsOr e.detail "Error al eliminar gasto") }

/-! ## Ingresos store (IngresosStore, incomes) -/

/-- An `Ingreso` record as far as the modelled pipelines observe it. -/
structure Ingreso where
  id : String
deriving Repr, DecidableEq

/-- The slice of `IngresosState` the create/delete pipelines touch. -/
structure IngresosState where
  ingresos : List Ingreso
  loading : Bool
  error : Option String
deriving Repr, DecidableEq

/-- The `tap` of `IngresosStore.createIngreso`: raises `loading` and resets
the error slot; the collection is not touched before the Gateway call. -/
def IngresosStore.createDispatch (s : IngresosState) : IngresosState :=
  { s with loading := true, error := none }

/-- The `tapResponse` success handler of `IngresosStore.createIngreso`: the
server-confirmed record is appended only after the response arrives. -/
def IngresosStore.createSuccess (s : IngresosState) (newIngreso : Ingreso) :
    IngresosState :=
  { s with ingresos := s.ingresos ++ [newIngreso], loading := false }

/-- The `tap` of `IngresosStore.deleteIngreso`: raises `loading` and resets
the error slot; the record is not removed before the Gateway call. -/
def IngresosStore.deleteDispatch (s : IngresosState) : IngresosState :=
  { s with loading := true, error := none }

/-- The `tapResponse` success handler of `IngresosStore.deleteIngreso`: the
record is filtered out only after the response arrives. -/
def IngresosStore.deleteSuccess (s : IngresosState) (id : String) :
    IngresosState :=
  { s with ingresos := s.ingresos.filter (fun i => i.id != id),
           loading := false }

/-! ## Supporting lemmas

Injectivity of the decimal rendering used by `temp_${Date.now()}`. -/

/-- Left inverse of `Nat.digitChar` on decimal digits. -/
def undigit (c : Char) : Nat :=
  if c = '1' then 1 else if c = '2' then 2 else if c = '3' then 3 else
  if c = '4' then 4 else if c = '5' then 5 else if c = '6' then 6 else
  if c = '7' then 7 else if c = '8' then 8 else if c = '9' then 9 else 0

theorem undigit_digitChar : ∀ d < 10, undigit (Nat.digitChar d) = d := by
  decide

theorem map_undigit_digitChar (l : List Nat) (hl : ∀ x ∈ l, x < 10) :
    (l.map Nat.digitChar).map undigit = l := by
  rw [List.map_map]
  have : ∀ x ∈ l, (undigit ∘ Nat.digitChar) x = id x := fun x hx =>
    undigit_digitChar x (hl x hx)
  rw [List.map_congr_left this, List.map_id]

theorem toDigitsCore_eq_digits (fuel : Nat) :
    ∀ (n : Nat) (ds : List Char), 0 < n → n ≤ fuel →
      Nat.toDigitsCore 10 fuel n ds =
        ((Nat.digits 10 n).map Nat.digitChar).reverse ++ ds := by
  induction fuel with
  | zero => intro n ds hn hf; omega
  | succ f ih =>
    intro n ds hn hf
    rw [Nat.toDigitsCore]
    have hdig := Nat.digits_def' (b := 10) (by norm_num) hn
    by_cases h10 : n / 10 = 0
    · simp only [h10, if_pos]
      rw [hdig, h10, Nat.digits_zero]
      simp
    · simp only [h10, if_neg, ite_false]
      have hpos : 0 < n / 10 := Nat.pos_of_ne_zero h10
      have hlt : n / 10 < n := Nat.div_lt_self hn (by norm_num)
      rw [ih (n / 10) _ hpos (by omega), hdig]
      simp [List.append_assoc]

theorem toDigits10_pos (n : Nat) (hn : 0 < n) :
    Nat.toDigits 10 n = ((Nat.digits 10 n).map Nat.digitChar).reverse := by
  rw [Nat.toDigits, toDigitsCore_eq_digits (n + 1) n [] hn (by omega),
    List.append_nil]

theorem digits_eq_of_toDigits_eq {m n : Nat} (hm : 0 < m) (hn : 0 < n)
    (h : Nat.toDigits 10 m = Nat.toDigits 10 n) :
    Nat.digits 10 m = Nat.digits 10 n := by
  rw [toDigits10_pos m hm, toDigits10_pos n hn] at h
  have h2 := List.reverse_injective h
  have h3 := congrArg (List.map undigit) h2
  rwa [map_undigit_digitChar _ (fun x hx => Nat.digits_lt_base (by norm_num) hx),
    map_undigit_digitChar _ (fun x hx => Nat.digits_lt_base (by norm_num) hx)]
    at h3

theorem toDigits10_inj {m n : Nat} (h : Nat.toDigits 10 m = Nat.toDigits 10 n) :
    m = n := by
  rcases Nat.eq_zero_or_pos m with hm | hm
  · rcases Nat.eq_zero_or_pos n with hn | hn
    · omega
    · exfalso
      subst hm
      have h0 : Nat.toDigits 10 0 = ['0'] := by decide
      rw [h0, toDigits10_pos n hn] at h
      have h2 := congrArg (List.map undigit) h.symm
      rw [List.map_reverse,
        map_undigit_digitChar _ (fun x hx => Nat.digits_lt_base (by norm_num) hx)]
        at h2
      have h3 : Nat.digits 10 n = [0] := by
        have := congrArg List.reverse h2
        simpa [undigit] using this
      have h4 := Nat.ofDigits_digits 10 n
      rw [h3] at h4
      simp [Nat.ofDigits] at h4
      omega
  · rcases Nat.eq_zero_or_pos n with hn | hn
    · exfalso
      subst hn
      have h0 : Nat.toDigits 10 0 = ['0'] := by decide
      rw [h0, toDigits10_pos m hm] at h
      have h2 := congrArg (List.map undigit) h
      rw [List.map_reverse,
        map_undigit_digitChar _ (fun x hx => Nat.digits_lt_base (by norm_num) hx)]
        at h2
      have h3 : Nat.digits 10 m = [0] := by
        have := congrArg List.reverse h2
        simpa [undigit] using this
      have h4 := Nat.ofDigits_digits 10 m
      rw [h3] at h4
      simp [Nat.ofDigits] at h4
      omega
    · have hd := digits_eq_of_toDigits_eq hm hn h
      have h4 := Nat.ofDigits_digits 10 m
      rw [hd, Nat.ofDigits_digits] at h4
      omega

theorem natRepr_inj {m n : Nat} (h : Nat.repr m = Nat.repr n) : m = n := by
  have h2 : Nat.toDigits 10 m = Nat.toDigits 10 n := by
    have := h
    unfold Nat.repr at this
    exact List.asString_inj.mp this
  exact toDigits10_inj h2

theorem tempIdOf_inj {m n : Nat} (h : tempIdOf m = tempIdOf n) : m = n := by
  apply natRepr_inj
  unfold tempIdOf at h
  have hdata := congrArg String.data h
  simp only [String.data_append] at hdata
  apply String.toList_inj.mp
  exact List.append_cancel_left hdata

/-- An id-conditional map leaves a list untouched when no element carries
the id. -/
theorem map_ite_eq_self (l : List Categoria) (id : String)
    (f : Categoria → Categoria) (h : ∀ c ∈ l, c.id ≠ id) :
    l.map (fun c => if c.id == id then f c else c) = l := by
  conv_rhs => rw [← List.map_id l]
  apply List.map_congr_left
  intro c hc
  simp [h c hc]

/-- A shallow merge whose update does not override the identifier keeps
it. -/
theorem merge_keeps_id (c : Categoria) (p : CategoriaPatch) (id : String)
    (hc : c.id = id) (hp : p.id = none ∨ p.id = some id) :
    (mergeCategoria c p).id = c.id := by
  rcases hp with hp | hp <;> simp [mergeCategoria, hp, hc]

/-- Core of rollback exactness: merging the record carrying `id` in place
and then mapping every record carrying `id` back to the record that was
found before mutating restores the original list — provided identifiers
are unique in the list and the merge does not change the identifier. -/
theorem rollback_restores (l : List Categoria) (id : String)
    (p : CategoriaPatch) (hp : p.id = none ∨ p.id = some id)
    (hnd : (l.map Categoria.id).Nodup) :
    ∀ a, l.find? (fun c => c.id == id) = some a →
      (l.map (fun c => if c.id == id then mergeCategoria c p else c)).map
        (fun c => if c.id == id then a else c) = l := by
  induction l with
  | nil => intro a ha; simp at ha
  | cons c t ih =>
    intro a ha
    by_cases hc : c.id = id
    · have hfind : (c :: t).find? (fun x => x.id == id) = some c :=
        List.find?_cons_of_pos _ (by simp [hc])
      rw [hfind] at ha
      obtain rfl : c = a := by injection ha
      have hnotin : ∀ x ∈ t, x.id ≠ id := by
        intro x hx hxid
        have hmem : c.id ∈ t.map Categoria.id := by
          rw [hc, ← hxid]
          exact List.mem_map_of_mem Categoria.id hx
        exact (List.nodup_cons.mp hnd).1 hmem
      have hcb : (c.id == id) = true := by simp [hc]
      have hmb : ((mergeCategoria c p).id == id) = true := by
        rw [beq_iff_eq, merge_keeps_id c p id hc hp]
        exact hc
      rw [List.map_cons, if_pos hcb, map_ite_eq_self t id _ hnotin,
        List.map_cons, if_pos hmb, map_ite_eq_self t id _ hnotin]
    · have hfind := List.find?_cons_of_neg (l := t)
        (a := c) (p := fun x => x.id == id) (by simp [hc])
      rw [hfind] at ha
      rw [List.map_cons, List.map_cons]
      rw [if_neg (by simp [hc]), if_neg (by simp [hc])]
      rw [ih (List.Nodup.of_cons hnd) a ha]

/-- Replacing the temporary record appended at the tail by the confirmed
record, when no pre-existing record carries the temporary id. -/
theorem map_replace_append (l : List Categoria) (tid : String)
    (temp real : Categoria) (ht : temp.id = tid)
    (h : ∀ c ∈ l, c.id ≠ tid) :
    (l ++ [temp]).map (fun c => if c.id == tid then real else c) =
      l ++ [real] := by
  rw [List.map_append, map_ite_eq_self l tid _ h]
  simp [ht]

/-! ## Claims -/

/-- C10: the temporary identifier generated by an optimistic create is
exactly the string `temp_` concatenated with the decimal rendering of the
current clock value in milliseconds; two creates started in distinct
milliseconds receive distinct temporary identifiers, and two creates
started within the same millisecond receive the identical one. -/
theorem claim_C10_temp_id (s : CategoriaState) (nombre : String)
    (nowMs dateNow m1 m2 : Nat) :
    (CategoriaStore.createOptimistic s nombre nowMs dateNow).categorias =
      s.categorias ++
        [{ id := "temp_" ++ Nat.repr nowMs, nombre := nombre,
           descripcion := "", fechaCreacion := dateNow, usuarioId := "" }] ∧
    (m1 ≠ m2 → tempIdOf m1 ≠ tempIdOf m2) ∧
    (m1 = m2 → tempIdOf m1 = tempIdOf m2) := by
  refine ⟨rfl, fun hne he => hne (tempIdOf_inj he), fun he => by rw [he]⟩

/-- Witness for C10 at `m1 = 3`, `m2 = 4`. -/
theorem claim_C10_witness : (3 : Nat) ≠ 4 ∧ tempIdOf 3 ≠ tempIdOf 4 :=
  ⟨by decide,
   (claim_C10_temp_id categoriaInitialState "x" 0 0 3 4).2.1 (by decide)⟩

/-- C3: if the Gateway confirms a create with identifier `X` — a server id,
hence non-empty, not already in the collection and distinct from the
temporary id — then after reconciliation exactly one record with id `X`
exists, it sits at the tail position the temporary record occupied, and no
record with the temporary id remains. -/
theorem claim_C3_create_reconciliation (s : CategoriaState) (nombre : String)
    (nowMs dateNow dateNow2 lastUpd : Nat) (X : String) (e : Option String)
    (hX : X ≠ "")
    (hXfresh : ∀ c ∈ s.categorias, c.id ≠ X)
    (htfresh : ∀ c ∈ s.categorias, c.id ≠ tempIdOf nowMs)
    (hXt : X ≠ tempIdOf nowMs) :
    (CategoriaStore.create s nombre nowMs dateNow dateNow2 lastUpd
        (Outcome.resp ⟨true, some X, e⟩)).2 = Except.ok X ∧
    (CategoriaStore.create s nombre nowMs dateNow dateNow2 lastUpd
        (Outcome.resp ⟨true, some X, e⟩)).1.categorias =
      s.categorias ++
        [{ id := X, nombre := nombre, descripcion := "",
           fechaCreacion := dateNow2, usuarioId := "" }] ∧
    ((CategoriaStore.create s nombre nowMs dateNow dateNow2 lastUpd
        (Outcome.resp ⟨true, some X, e⟩)).1.categorias.countP
      (fun c => c.id == X)) = 1 ∧
    (CategoriaStore.create s nombre nowMs dateNow dateNow2 lastUpd
        (Outcome.resp ⟨true, some X, e⟩)).1.categorias.get?
      s.categorias.length =
      some { id := X, nombre := nombre, descripcion := "",
             fechaCreacion := dateNow2, usuarioId := "" } ∧
    (CategoriaStore.createOptimistic s nombre nowMs dateNow).categorias.get?
      s.categorias.length =
      some { id := tempIdOf nowMs, nombre := nombre, descripcion := "",
             fechaCreacion := dateNow, usuarioId := "" } ∧
    ∀ c ∈ (CategoriaStore.create s nombre nowMs dateNow dateNow2 lastUpd
        (Outcome.resp ⟨true, some X, e⟩)).1.categorias,
      c.id ≠ tempIdOf nowMs := by
  have hXb : (true && (X != "")) = true := by simp [hX]
  have hcats :
      (CategoriaStore.create s nombre nowMs dateNow dateNow2 lastUpd
        (Outcome.resp ⟨true, some X, e⟩)).1.categorias =
      s.categorias ++
        [{ id := X, nombre := nombre, descripcion := "",
           fechaCreacion := dateNow2, usuarioId := "" }] := by
    simp only [CategoriaStore.create, CategoriaStore.createOptimistic, hXb,
      if_true]
    exact map_replace_append s.categorias (tempIdOf nowMs) _ _ rfl htfresh
  have hsnd :
      (CategoriaStore.create s nombre nowMs dateNow dateNow2 lastUpd
        (Outcome.resp ⟨true, some X, e⟩)).2 = Except.ok X := by
    simp only [CategoriaStore.create, CategoriaStore.createOptimistic, hXb,
      if_true]
  refine ⟨hsnd, hcats, ?_, ?_, ?_, ?_⟩
  · rw [hcats, List.countP_append]
    have h0 : s.categorias.countP (fun c => c.id == X) = 0 := by
      rw [List.countP_eq_zero]
      intro c hc
      simp [hXfresh c hc]
    simp [h0]
  · rw [hcats, List.get?_concat_length]
  · simp only [CategoriaStore.createOptimistic]
    rw [List.get?_concat_length]
  · rw [hcats]
    intro c hc
    rcases List.mem_append.mp hc with h | h
    · exact htfresh c h
    · rcases List.mem_singleton.mp h with rfl
      exact hXt

/-- Witness for C3: a one-record collection, confirmation id `"srv9"`. -/
theorem claim_C3_witness :
    (("srv9" : String) ≠ "" ∧
      (∀ c ∈ [({ id := "c1", nombre := "A", descripcion := "",
                 fechaCreacion := 0, usuarioId := "" } : Categoria)],
        c.id ≠ "srv9") ∧
      (∀ c ∈ [({ id := "c1", nombre := "A", descripcion := "",
                 fechaCreacion := 0, usuarioId := "" } : Categoria)],
        c.id ≠ tempIdOf 7) ∧
      ("srv9" : String) ≠ tempIdOf 7) ∧
    (CategoriaStore.create
      { categoriaInitialState with
        categorias := [{ id := "c1", nombre := "A", descripcion := "",
                         fechaCreacion := 0, usuarioId := "" }] }
      "B" 7 1 2 3 (Outcome.resp ⟨true, some "srv9", none⟩)).2 =
      Except.ok "srv9" := by
  have h1 : ("srv9" : String) ≠ "" := by decide
  have h2 : ∀ c ∈ [({ id := "c1", nombre := "A", descripcion := "",
                      fechaCreacion := 0, usuarioId := "" } : Categoria)],
      c.id ≠ "srv9" := by
    decide
  have h3 : ∀ c ∈ [({ id := "c1", nombre := "A", descripcion := "",
                      fechaCreacion := 0, usuarioId := "" } : Categoria)],
      c.id ≠ tempIdOf 7 := by decide
  have h4 : ("srv9" : String) ≠ tempIdOf 7 := by decide
  exact ⟨⟨h1, h2, h3, h4⟩,
    (claim_C3_create_reconciliation
      { categoriaInitialState with
        categorias := [{ id := "c1", nombre := "A", descripcion := "",
                         fechaCreacion := 0, usuarioId := "" }] }
      "B" 7 1 2 3 "srv9" none h1 h2 h3 h4).1⟩

/-- C1 counterexample: merging the partial update `{ id := "b" }` into the
record with id `"a"` and then failing the Gateway call leaves the merged
record in place — the rollback's id-based lookup no longer matches it — so
the collection afterward differs from the collection before the call. -/
theorem claim_C1_counterexample :
    (CategoriaStore.update
      { categoriaInitialState with
        categorias := [{ id := "a", nombre := "N", descripcion := "",
                         fechaCreacion := 0, usuarioId := "" }] }
      "a" { id := some "b" } 0 (Outcome.exn "network down")).1.categorias ≠
    [{ id := "a", nombre := "N", descripcion := "", fechaCreacion := 0,
       usuarioId := "" }] := by
  decide

/-- C1 (amended): for a collection whose identifiers are unique and a
partial update that does not override the identifier field, a failed
`update` — whether the envelope is rejected or the call throws — restores
the collection exactly: the captured pre-mutation record replaces the
merged one at the same position, with no residual merged fields. -/
theorem claim_C1_rollback_exact (s : CategoriaState) (id : String)
    (p : CategoriaPatch) (lastUpd : Nat)
    (hnd : (s.categorias.map Categoria.id).Nodup)
    (hp : p.id = none ∨ p.id = some id) :
    (∀ m, (CategoriaStore.update s id p lastUpd
      (Outcome.exn m)).1.categorias = s.categorias) ∧
    (∀ r : Result String, r.isSuccess = false →
      (CategoriaStore.update s id p lastUpd
        (Outcome.resp r)).1.categorias = s.categorias) := by
  constructor
  · intro m
    cases hfind : s.categorias.find? (fun c => c.id == id) with
    | none =>
      simp only [CategoriaStore.update, CategoriaStore.updateOptimistic,
        hfind]
    | some a =>
      simp only [CategoriaStore.update, CategoriaStore.updateOptimistic,
        hfind]
      exact rollback_restores s.categorias id p hp hnd a hfind
  · intro r hr
    cases hfind : s.categorias.find? (fun c => c.id == id) with
    | none =>
      simp only [CategoriaStore.update, CategoriaStore.updateOptimistic,
        hfind, hr, Bool.false_eq_true, if_false]
    | some a =>
      simp only [CategoriaStore.update, CategoriaStore.updateOptimistic,
        hfind, hr, Bool.false_eq_true, if_false]
      exact rollback_restores s.categorias id p hp hnd a hfind

/-- Witness for C1 at a two-record collection, the update
`{ nombre := "Z" }` on id `"a"`, and a thrown Gateway error. -/
theorem claim_C1_witness :
    (([({ id := "a", nombre := "N", descripcion := "", fechaCreacion := 0,
          usuarioId := "" } : Categoria),
       { id := "b", nombre := "M", descripcion := "", fechaCreacion := 0,
         usuarioId := "" }].map Categoria.id).Nodup ∧
     (({ nombre := some "Z" } : CategoriaPatch).id = none ∨
      ({ nombre := some "Z" } : CategoriaPatch).id = some "a")) ∧
    (CategoriaStore.update
      { categoriaInitialState with
        categorias := [{ id := "a", nombre := "N", descripcion := "",
                         fechaCreacion := 0, usuarioId := "" },
                       { id := "b", nombre := "M", descripcion := "",
                         fechaCreacion := 0, usuarioId := "" }] }
      "a" { nombre := some "Z" } 0 (Outcome.exn "boom")).1.categorias =
      [{ id := "a", nombre := "N", descripcion := "", fechaCreacion := 0,
         usuarioId := "" },
       { id := "b", nombre := "M", descripcion := "", fechaCreacion := 0,
         usuarioId := "" }] := by
  refine ⟨⟨by decide, Or.inl rfl⟩, ?_⟩
  exact (claim_C1_rollback_exact
    { categoriaInitialState with
      categorias := [{ id := "a", nombre := "N", descripcion := "",
                       fechaCreacion := 0, usuarioId := "" },
                     { id := "b", nombre := "M", descripcion := "",
                       fechaCreacion := 0, usuarioId := "" }] }
    "a" { nombre := some "Z" } 0 (by decide) (Or.inl rfl)).1 "boom"

/-- C2: a failed delete does not restore the snapshot.  The categoria
pipeline looks the record up for rollback only inside the `switchMap`,
after the optimistic `tap` already removed it, so the capture is always
`undefined`: deleting the single record `"c1"` (totalRecords 1) with a
failing Gateway leaves the collection empty and the total at 0; the gastos
pipeline contains no rollback at all and behaves the same on `"g1"`. -/
theorem claim_C2_delete_rollback_missing :
    ((CategoriaStore.deleteCategoria
      { categoriaInitialState with
        categorias := [{ id := "c1", nombre := "A", descripcion := "",
                         fechaCreacion := 0, usuarioId := "" }]
        totalRecords := 1 }
      "c1" (DeleteOutcome.fail ⟨none⟩) 0).categorias = [] ∧
     (CategoriaStore.deleteCategoria
      { categoriaInitialState with
        categorias := [{ id := "c1", nombre := "A", descripcion := "",
                         fechaCreacion := 0, usuarioId := "" }]
        totalRecords := 1 }
      "c1" (DeleteOutcome.fail ⟨none⟩) 0).totalRecords = 0) ∧
    ((GastosStore.deleteGasto ⟨[⟨"g1"⟩], 1, false, none, none, []⟩ "g1"
      (DeleteOutcome.fail ⟨some "err"⟩) 0).gastos = [] ∧
     (GastosStore.deleteGasto ⟨[⟨"g1"⟩], 1, false, none, none, []⟩ "g1"
      (DeleteOutcome.fail ⟨some "err"⟩) 0).totalRecords = 0) := by
  decide

/-- C4: no create adjusts the total before the Gateway call, and the
cliente rollback decrements a count that was never incremented: with
`totalRecords = 5`, the cliente dispatch state still shows 5 (no `+1`), a
failed cliente create ends at 4 (not 5), and the categoria create leaves
the total untouched in every phase. -/
theorem claim_C4_create_count_bug :
    (ClienteStore.createOptimistic
      { clienteInitialState with totalRecords := 5 } "X" 0 0).totalRecords
      = 5 ∧
    (ClienteStore.create { clienteInitialState with totalRecords := 5 }
      "X" 0 0 0 0 (Outcome.exn "network down")).1.totalRecords = 4 ∧
    (CategoriaStore.createOptimistic
      { categoriaInitialState with totalRecords := 5 } "X" 0 0).totalRecords
      = 5 ∧
    (CategoriaStore.create { categoriaInitialState with totalRecords := 5 }
      "X" 0 0 0 0 (Outcome.exn "network down")).1.totalRecords = 5 := by
  decide

/-- C5 counterexample: the ingresos store is not optimistic — when its
delete pipeline dispatches the Gateway call the collection still contains
the record, so the snapshot does not reflect the change at dispatch. -/
theorem claim_C5_counterexample :
    (IngresosStore.deleteDispatch ⟨[⟨"i1"⟩], false, none⟩).ingresos ≠
      ([(⟨"i1"⟩ : Ingreso)].filter (fun i => i.id != "i1")) := by
  decide

/-- C5 (amended): the optimistic stores (categoria-style) update the
snapshot synchronously before the Gateway call is dispatched — at dispatch
the create state already carries the temporary record, the delete state no
longer carries the removed id, and the update state carries the merge when
the record exists — whereas the ingresos store's create and delete
pipelines leave the collection unchanged at dispatch and mutate it only in
their response handlers. -/
theorem claim_C5_optimistic_before_dispatch :
    (∀ (s : CategoriaState) (nombre : String) (nowMs dateNow : Nat),
      (CategoriaStore.createOptimistic s nombre nowMs dateNow).categorias =
        s.categorias ++
          [{ id := tempIdOf nowMs, nombre := nombre, descripcion := "",
             fechaCreacion := dateNow, usuarioId := "" }]) ∧
    (∀ (s : CategoriaState) (id : String),
      ∀ c ∈ (CategoriaStore.deleteOptimistic s id).categorias, c.id ≠ id) ∧
    (∀ (s : CategoriaState) (id : String) (p : CategoriaPatch)
      (a : Categoria), s.categorias.find? (fun c => c.id == id) = some a →
      (CategoriaStore.updateOptimistic s id p).categorias =
        s.categorias.map
          (fun c => if c.id == id then mergeCategoria c p else c)) ∧
    (∀ si : IngresosState,
      (IngresosStore.createDispatch si).ingresos = si.ingresos) ∧
    (∀ si : IngresosState,
      (IngresosStore.deleteDispatch si).ingresos = si.ingresos) ∧
    (∀ (si : IngresosState) (n : Ingreso),
      (IngresosStore.createSuccess si n).ingresos = si.ingresos ++ [n]) ∧
    (∀ (si : IngresosState) (id : String),
      (IngresosStore.deleteSuccess si id).ingresos =
        si.ingresos.filter (fun i => i.id != id)) := by
  refine ⟨fun s nombre nowMs dateNow => rfl, ?_, ?_, fun si => rfl,
    fun si => rfl, fun si n => rfl, fun si id => rfl⟩
  · intro s id c hc
    simp only [CategoriaStore.deleteOptimistic] at hc
    have h2 := (List.mem_filter.mp hc).2
    simpa using h2
  · intro s id p a hfind
    simp only [CategoriaStore.updateOptimistic, hfind]

/-- Witness for C5: the update-dispatch conjunct at a one-record state. -/
theorem claim_C5_witness :
    ([({ id := "a", nombre := "N", descripcion := "", fechaCreacion := 0,
         usuarioId := "" } : Categoria)].find? (fun c => c.id == "a") =
      some { id := "a", nombre := "N", descripcion := "",
             fechaCreacion := 0, usuarioId := "" }) ∧
    (CategoriaStore.updateOptimistic
      { categoriaInitialState with
        categorias := [{ id := "a", nombre := "N", descripcion := "",
                         fechaCreacion := 0, usuarioId := "" }] }
      "a" { nombre := some "Z" }).categorias =
      [({ id := "a", nombre := "N", descripcion := "", fechaCreacion := 0,
          usuarioId := "" } : Categoria)].map
        (fun c => if c.id == "a" then mergeCategoria c { nombre := some "Z" }
          else c) := by
  refine ⟨by decide, ?_⟩
  exact claim_C5_optimistic_before_dispatch.2.2.1
    { categoriaInitialState with
      categorias := [{ id := "a", nombre := "N", descripcion := "",
                       fechaCreacion := 0, usuarioId := "" }] }
    "a" { nombre := some "Z" }
    { id := "a", nombre := "N", descripcion := "", fechaCreacion := 0,
      usuarioId := "" } (by decide)

/-- C6: issuing `loadPaginated(Q1)` then `loadPaginated(Q2)` while Q1 is
still in flight ends, for either response-arrival order, with the snapshot
carrying Q2's items and total — `switchMap` discards the superseded
request's response, whatever it was. -/
theorem claim_C6_query_supersession (s : CategoriaState) (a0 : Option Nat)
    (q1 q2 : Query) (r1 : LoadResult) (p2 : PagedResponse) (t1 t2 : Nat) :
    ((loadRun ⟨s, a0⟩ [LoadEvent.request 0 q1, LoadEvent.request 1 q2,
        LoadEvent.response 1 (LoadResult.ok p2) t2,
        LoadEvent.response 0 r1 t1]).store.categorias = p2.items ∧
     (loadRun ⟨s, a0⟩ [LoadEvent.request 0 q1, LoadEvent.request 1 q2,
        LoadEvent.response 1 (LoadResult.ok p2) t2,
        LoadEvent.response 0 r1 t1]).store.totalRecords = p2.totalCount) ∧
    ((loadRun ⟨s, a0⟩ [LoadEvent.request 0 q1, LoadEvent.request 1 q2,
        LoadEvent.response 0 r1 t1,
        LoadEvent.response 1 (LoadResult.ok p2) t2]).store.categorias =
        p2.items ∧
     (loadRun ⟨s, a0⟩ [LoadEvent.request 0 q1, LoadEvent.request 1 q2,
        LoadEvent.response 0 r1 t1,
        LoadEvent.response 1 (LoadResult.ok p2) t2]).store.totalRecords =
        p2.totalCount) := by
  simp [loadRun, loadStep, CategoriaStore.loadDispatch,
    CategoriaStore.loadSuccess]

/-- C7: a successful create, update or delete leaves the query cache empty,
so a search performed afterwards misses for every previously cached key —
it cannot return stale cached data. -/
theorem claim_C7_cache_invalidation (s : CategoriaState) :
    (∀ (nombre : String) (nowMs d1 d2 t : Nat) (v : String)
      (e : Option String), v ≠ "" → ∀ key,
      cacheGet (CategoriaStore.create s nombre nowMs d1 d2 t
        (Outcome.resp ⟨true, some v, e⟩)).1.searchCache key = none) ∧
    (∀ (id : String) (p : CategoriaPatch) (t : Nat) (r : Result String),
      r.isSuccess = true → ∀ key,
      cacheGet (CategoriaStore.update s id p t
        (Outcome.resp r)).1.searchCache key = none) ∧
    (∀ (id : String) (t : Nat) (key : String),
      cacheGet (CategoriaStore.deleteCategoria s id
        DeleteOutcome.ok t).searchCache key = none) := by
  refine ⟨?_, ?_, ?_⟩
  · intro nombre nowMs d1 d2 t v e hv key
    have hb : (true && (v != "")) = true := by simp [hv]
    simp [CategoriaStore.create, CategoriaStore.createOptimistic, hb,
      cacheGet]
  · intro id p t r hr key
    simp [CategoriaStore.update, CategoriaStore.updateOptimistic, hr,
      cacheGet]
  · intro id t key
    simp [CategoriaStore.deleteCategoria, CategoriaStore.deleteOptimistic,
      cacheGet]

/-- Witness for C7: a confirmed create on the initial state and the cache
key `"A_10"`. -/
theorem claim_C7_witness :
    (("srv1" : String) ≠ "") ∧
    cacheGet (CategoriaStore.create categoriaInitialState "A" 0 0 0 0
      (Outcome.resp ⟨true, some "srv1", none⟩)).1.searchCache "A_10" =
      none :=
  ⟨by decide,
   (claim_C7_cache_invalidation categoriaInitialState).1 "A" 0 0 0 0 "srv1"
     none (by decide) "A_10"⟩

/-- C8 counterexample: `search` does not swallow Gateway failures — on a
cache miss with a thrown error it returns the exception to the caller
(re-throws) instead of only recording it. -/
theorem claim_C8_counterexample :
    (CategoriaStore.search categoriaInitialState "q" 10
      (Outcome.exn "boom") 0).2 = Except.error "boom" := rfl

/-- C8 (amended): only the paginated load's failure handler records the
derived message without re-throwing (and leaves the collection unchanged);
`search` records the message but re-throws to the caller; `getRecent`
re-throws without recording anything — the error slot is left exactly as it
was. -/
theorem claim_C8_read_failures (s : CategoriaState) (u : Option String)
    (m q : String) (lim t : Nat) :
    ((CategoriaStore.loadFailure s u).error =
      some (jsOr u "Error al cargar categorías") ∧
     (CategoriaStore.loadFailure s u).categorias = s.categorias) ∧
    (cacheGet s.searchCache (q ++ "_" ++ Nat.repr lim) = none →
      (CategoriaStore.search s q lim (Outcome.exn m) t).2 =
        Except.error m ∧
      (CategoriaStore.search s q lim (Outcome.exn m) t).1.error = some m) ∧
    ((CategoriaStore.getRecent s (Outcome.exn m)).2 = Except.error m ∧
     (CategoriaStore.getRecent s (Outcome.exn m)).1.error = s.error) := by
  refine ⟨⟨rfl, rfl⟩, ?_, ⟨rfl, rfl⟩⟩
  intro hmiss
  constructor <;> simp [CategoriaStore.search, hmiss]

/-- Witness for C8 on the initial state (empty cache, so the search key
misses). -/
theorem claim_C8_witness :
    cacheGet categoriaInitialState.searchCache ("q" ++ "_" ++ Nat.repr 10)
      = none ∧
    (CategoriaStore.search categoriaInitialState "q" 10 (Outcome.exn "boom")
      0).1.error = some "boom" :=
  ⟨rfl,
   ((claim_C8_read_failures categoriaInitialState none "boom" "q" 10
     0).2.1 rfl).2⟩

/-- C9 counterexample: dispatching a paginated load clears a previously
recorded error automatically — `clearError` is not the only operation that
empties the error slot. -/
theorem claim_C9_counterexample :
    (CategoriaStore.loadDispatch
      { categoriaInitialState with error := some "E" }).error = none ∧
    ({ categoriaInitialState with error := some "E" } :
      CategoriaState).error = some "E" :=
  ⟨rfl, rfl⟩

/-- C9 (amended): the error slot is cleared by the dedicated `clearError`,
but also automatically: every paginated-load dispatch, optimistic create
and optimistic update (when the record exists) resets it to `null`, and a
successful paginated load resets it as well; only the delete pipeline's
optimistic phase leaves it unchanged. -/
theorem claim_C9_error_clearing (s : CategoriaState) :
    (CategoriaStore.clearError s).error = none ∧
    (CategoriaStore.loadDispatch s).error = none ∧
    (∀ (r : PagedResponse) (now : Nat),
      (CategoriaStore.loadSuccess s r now).error = none) ∧
    (∀ (nombre : String) (nowMs dateNow : Nat),
      (CategoriaStore.createOptimistic s nombre nowMs dateNow).error =
        none) ∧
    (∀ (id : String) (p : CategoriaPatch) (a : Categoria),
      s.categorias.find? (fun c => c.id == id) = some a →
      (CategoriaStore.updateOptimistic s id p).error = none) ∧
    (∀ id : String,
      (CategoriaStore.deleteOptimistic s id).error = s.error) := by
  refine ⟨rfl, rfl, fun r now => rfl, fun nombre nowMs dateNow => rfl, ?_,
    fun id => rfl⟩
  intro id p a hfind
  simp only [CategoriaStore.updateOptimistic, hfind]

/-- Witness for C9: the update-dispatch conjunct at a one-record state. -/
theorem claim_C9_witness :
    ([({ id := "a", nombre := "N", descripcion := "", fechaCreacion := 0,
         usuarioId := "" } : Categoria)].find? (fun c => c.id == "a") =
      some { id := "a", nombre := "N", descripcion := "",
             fechaCreacion := 0, usuarioId := "" }) ∧
    (CategoriaStore.updateOptimistic
      { categoriaInitialState with
        categorias := [{ id := "a", nombre := "N", descripcion := "",
                         fechaCreacion := 0, usuarioId := "" }]
        error := some "old" }
      "a" { nombre := some "Z" }).error = none :=
  ⟨by decide,
   (claim_C9_error_clearing
     { categoriaInitialState with
       categorias := [{ id := "a", nombre := "N", descripcion := "",
                        fechaCreacion := 0, usuarioId := "" }]
       error := some "old" }).2.2.2.2.1 "a" { nombre := some "Z" }
     { id := "a", nombre := "N", descripcion := "", fechaCreacion := 0,
       usuarioId := "" } (by decide)⟩
